import Mathlib

set_option maxHeartbeats 1000000

/-- Model of one ALSA mixer element as seen through the snd_mixer_selem
interface consumed by cras_alsa_mixer.c. Modelled from the spec, section 6:
the backend exposes named elements with optional playback-volume and
playback-switch capability, an integer dB range with discrete steps, a
per-channel dB state (head of chanDB is the front-left reference channel)
and a per-channel switch state. -/
structure Elem where
  name : String
  hasPlaybackVolume : Bool
  hasPlaybackSwitch : Bool
  volLo : Int
  volHi : Int
  volStep : Int
  chanDB : List Int
  switchChans : List Bool
deriving DecidableEq

/-- Modelled from the spec: the backend quantization policy used by
snd_mixer_selem_set_playback_dB_all with round direction 1 (spec section 6,
round policy ceiling): the closest representable attenuation that is
greater than or equal to the request, clamped to the element range. -/
def quantizeUp (e : Elem) (r : Int) : Int :=
  if e.volHi ≤ r then e.volHi
  else if r ≤ e.volLo then e.volLo
  else e.volLo + e.volStep * Int.ediv (r - e.volLo + e.volStep - 1) e.volStep

/-- Backend write of a playback dB value to all channels of an element,
with the ceiling rounding policy applied by the backend. -/
def snd_mixer_selem_set_playback_dB_all (e : Elem) (value : Int) : Elem :=
  { e with chanDB := e.chanDB.map (fun _ => quantizeUp e value) }

/-- Backend read of the playback dB value of the front-left reference
channel. -/
def snd_mixer_selem_get_playback_dB (e : Elem) : Int :=
  e.chanDB.headD 0

/-- Backend write of the playback switch state to all channels. -/
def snd_mixer_selem_set_playback_switch_all (e : Elem) (value : Bool) : Elem :=
  { e with switchChans := e.switchChans.map (fun _ => value) }

/-- Control names to look for to control the main volume of an alsa device
(main_volume_control_names in cras_alsa_mixer.c). -/
def main_volume_control_names : List String :=
  ["Master", "Digital", "PCM"]

/-- Mirrors struct cras_alsa_mixer: the ordered list of discovered volume
controls and the single captured playback switch. Control elements are held
by value here; the C code holds references into the backend. -/
structure cras_alsa_mixer where
  main_volume_controls : List Elem
  playback_switch : Option Elem
deriving DecidableEq

/-- Mirrors is_main_volume_control: compare the element name against each
entry of main_volume_control_names. -/
def is_main_volume_control (e : Elem) : Bool :=
  main_volume_control_names.any (fun n => n == e.name)

/-- Environment for one call of cras_alsa_mixer_create: whether each
sub-step of alsa_mixer_open succeeds, and the elements the backend
enumerates, in enumeration order. -/
structure AlsaBackend where
  open_ok : Bool
  attach_ok : Bool
  register_ok : Bool
  load_ok : Bool
  elems : List Elem

/-- Mirrors alsa_mixer_open: snd_mixer_open, then attach, register, load in
order; a failure after a successful open closes the mixer (the
fail_after_open path). Returns the connection on success paired with
whether snd_mixer_close was called. -/
def alsa_mixer_open (b : AlsaBackend) : Option Unit × Bool :=
  if !b.open_ok then (none, false)
  else if !b.attach_ok then (none, true)
  else if !b.register_ok then (none, true)
  else if !b.load_ok then (none, true)
  else (some (), false)

/-- Mirrors cras_alsa_mixer_destroy: free every mixer_volume_control record
of the list and close the mixer. Returns the number of records freed and
that the connection was closed. -/
def cras_alsa_mixer_destroy (cras_mixer : cras_alsa_mixer) : Nat × Bool :=
  (cras_mixer.main_volume_controls.length, true)

/-- Mirrors the playback-switch capture inside the discovery loop of
cras_alsa_mixer_create: grab the first playback switch, ignore later
ones. -/
def switch_upd (cmix : cras_alsa_mixer) (e : Elem) : cras_alsa_mixer :=
  if cmix.playback_switch.isNone && e.hasPlaybackSwitch then
    { cmix with playback_switch := some e }
  else cmix

/-- Discovery loop of cras_alsa_mixer_create over the enumerated elements.
The list allocs is the oracle for the calloc of each mixer_volume_control
record (head consumed per allocation attempt; an exhausted oracle means
success); nalloc counts the records allocated so far. Returns the finished
handle on success, or none after calling cras_alsa_mixer_destroy on an
allocation failure, together with the number of records allocated, the
number of records freed and whether the connection was closed. -/
def create_scan : List Elem → List Bool → cras_alsa_mixer → Nat →
    Option cras_alsa_mixer × Nat × Nat × Bool
  | [], _, cmix, nalloc => (some cmix, nalloc, 0, false)
  | e :: rest, allocs, cmix, nalloc =>
    if is_main_volume_control e then
      if e.hasPlaybackVolume then
        if allocs.headD true then
          create_scan rest allocs.tail
            (switch_upd
              { cmix with
                  main_volume_controls := cmix.main_volume_controls ++ [e] } e)
            (nalloc + 1)
        else
          (none, nalloc, (cras_alsa_mixer_destroy cmix).fst,
            (cras_alsa_mixer_destroy cmix).snd)
      else create_scan rest allocs (switch_upd cmix e) nalloc
    else create_scan rest allocs cmix nalloc

/-- Outcome of cras_alsa_mixer_create together with its resource effects. -/
structure CreateResult where
  handle : Option cras_alsa_mixer
  conn_closed : Bool
  recs_alloc : Nat
  recs_freed : Nat
deriving DecidableEq

/-- Mirrors cras_alsa_mixer_create: calloc the handle, open the backend via
alsa_mixer_open, then scan every enumerated element for volume controls and
the playback switch. -/
def cras_alsa_mixer_create (b : AlsaBackend) (cmix_alloc_ok : Bool)
    (allocs : List Bool) : CreateResult :=
  if !cmix_alloc_ok then ⟨none, false, 0, 0⟩
  else
    match alsa_mixer_open b with
    | (none, cl) => ⟨none, cl, 0, 0⟩
    | (some _, _) =>
      match create_scan b.elems allocs ⟨[], none⟩ 0 with
      | (h, a, f, cl) => ⟨h, cl, a, f⟩

/-- The DL_FOREACH body of cras_alsa_mixer_set_volume: ask the control to
apply the amount still to set with round direction up, read the value
actually applied back from the front-left reference channel, subtract it
from the amount still to set, and continue with every remaining control. -/
def set_volume_loop : List Elem → Int → List Elem
  | [], _ => []
  | c :: rest, to_set =>
    let c2 := snd_mixer_selem_set_playback_dB_all c to_set
    let actual_dB := snd_mixer_selem_get_playback_dB c2
    c2 :: set_volume_loop rest (to_set - actual_dB)

/-- Mirrors cras_alsa_mixer_set_volume. -/
def cras_alsa_mixer_set_volume (cras_mixer : cras_alsa_mixer)
    (volume_dB : Int) : cras_alsa_mixer :=
  { cras_mixer with
      main_volume_controls :=
        set_volume_loop cras_mixer.main_volume_controls volume_dB }

/-- Mirrors cras_alsa_mixer_set_mute: without a discovered switch the call
returns with no effect; otherwise it sets the switch on all channels to the
negation of muted. -/
def cras_alsa_mixer_set_mute (cras_mixer : cras_alsa_mixer)
    (muted : Bool) : cras_alsa_mixer :=
  match cras_mixer.playback_switch with
  | none => cras_mixer
  | some e =>
    { cras_mixer with
        playback_switch :=
          some (snd_mixer_selem_set_playback_switch_all e (!muted)) }

/-- Value a control reports back after being asked to apply r: the backend
write followed by the read of the reference channel. -/
def applied_dB (c : Elem) (r : Int) : Int :=
  snd_mixer_selem_get_playback_dB (snd_mixer_selem_set_playback_dB_all c r)

/-- Residual attenuation still owed before control i of the list, for a
request r distributed by set_volume_loop. -/
def residualBefore : List Elem → Int → Nat → Int
  | _, r, 0 => r
  | [], r, _ + 1 => r
  | c :: rest, r, i + 1 => residualBefore rest (r - applied_dB c r) i

/-- Whether the discovery scan hits a failing record allocation. -/
def scanAllocFails : List Elem → List Bool → Bool
  | [], _ => false
  | e :: rest, allocs =>
    if is_main_volume_control e && e.hasPlaybackVolume then
      if allocs.headD true then scanAllocFails rest allocs.tail else true
    else scanAllocFails rest allocs

/-- First of two options that is populated. -/
def optOr : Option Elem → Option Elem → Option Elem
  | some s, _ => some s
  | none, b => b

lemma set_volume_loop_length (l : List Elem) (r : Int) :
    (set_volume_loop l r).length = l.length := by
  induction l generalizing r with
  | nil => rfl
  | cons c rest ih => simp [set_volume_loop, ih]

lemma set_volume_loop_getElem? (l : List Elem) (r : Int) (i : Nat) (c : Elem)
    (h : l[i]? = some c) :
    (set_volume_loop l r)[i]?
      = some (snd_mixer_selem_set_playback_dB_all c (residualBefore l r i)) := by
  induction i generalizing l r with
  | zero =>
    cases l with
    | nil => simp at h
    | cons a as =>
      simp at h
      subst h
      simp [set_volume_loop, residualBefore]
  | succ i ih =>
    cases l with
    | nil => simp at h
    | cons a as =>
      simp at h
      simpa [set_volume_loop, residualBefore, applied_dB] using ih as _ h

lemma residualBefore_succ (l : List Elem) (r : Int) (i : Nat) (c : Elem)
    (h : l[i]? = some c) :
    residualBefore l r (i + 1)
      = residualBefore l r i - applied_dB c (residualBefore l r i) := by
  induction i generalizing l r with
  | zero =>
    cases l with
    | nil => simp at h
    | cons a as =>
      simp at h
      subst h
      simp [residualBefore]
  | succ i ih =>
    cases l with
    | nil => simp at h
    | cons a as =>
      simp at h
      simpa [residualBefore] using ih as _ h

lemma applied_eq_quantize (c : Elem) (r : Int) (h : c.chanDB ≠ []) :
    applied_dB c r = quantizeUp c r := by
  cases hc : c.chanDB with
  | nil => exact absurd hc h
  | cons x xs =>
    simp [applied_dB, snd_mixer_selem_get_playback_dB,
      snd_mixer_selem_set_playback_dB_all, hc]

/-- C3: set_volume visits the volume controls exactly in discovery order and
maintains a residual: it starts at the request, control i is asked to apply
the current residual, the backend quantizes to the closest representable
step greater than or equal to it, the applied value is read back from the
reference channel, and the residual after control i equals the residual
before it minus the applied value; every control is visited, the output
list keeping the full length even after the residual reaches zero. -/
theorem set_volume_residual_distribution (m : cras_alsa_mixer) (R : Int)
    (i : Nat) (c : Elem)
    (hc : m.main_volume_controls[i]? = some c) (hch : c.chanDB ≠ []) :
    ((cras_alsa_mixer_set_volume m R).main_volume_controls).length
        = m.main_volume_controls.length ∧
    ((cras_alsa_mixer_set_volume m R).main_volume_controls)[i]?.map
        snd_mixer_selem_get_playback_dB
      = some (applied_dB c (residualBefore m.main_volume_controls R i)) ∧
    applied_dB c (residualBefore m.main_volume_controls R i)
      = quantizeUp c (residualBefore m.main_volume_controls R i) ∧
    residualBefore m.main_volume_controls R (i + 1)
      = residualBefore m.main_volume_controls R i
        - applied_dB c (residualBefore m.main_volume_controls R i) := by
  refine ⟨?_, ?_, ?_, ?_⟩
  · simp [cras_alsa_mixer_set_volume, set_volume_loop_length]
  · have hg := set_volume_loop_getElem? m.main_volume_controls R i c hc
    simp [cras_alsa_mixer_set_volume, hg, applied_dB]
  · exact applied_eq_quantize c _ hch
  · exact residualBefore_succ _ _ _ _ hc

/-- Concrete one-control element used by the C3 witness. -/
def masterC3 : Elem := ⟨"Master", true, false, -60, 0, 1, [0, 0], [true, true]⟩

/-- Concrete handle used by the C3 witness. -/
def mixC3 : cras_alsa_mixer := ⟨[masterC3], none⟩

/-- Witness for C3 at a concrete one-control handle and request -45. -/
theorem set_volume_residual_distribution_witness :
    mixC3.main_volume_controls[0]? = some masterC3 ∧
    masterC3.chanDB ≠ [] ∧
    (((cras_alsa_mixer_set_volume mixC3 (-45)).main_volume_controls).length
        = mixC3.main_volume_controls.length ∧
      ((cras_alsa_mixer_set_volume mixC3 (-45)).main_volume_controls)[0]?.map
          snd_mixer_selem_get_playback_dB
        = some (applied_dB masterC3
            (residualBefore mixC3.main_volume_controls (-45) 0)) ∧
      applied_dB masterC3 (residualBefore mixC3.main_volume_controls (-45) 0)
        = quantizeUp masterC3
            (residualBefore mixC3.main_volume_controls (-45) 0) ∧
      residualBefore mixC3.main_volume_controls (-45) (0 + 1)
        = residualBefore mixC3.main_volume_controls (-45) 0
          - applied_dB masterC3
              (residualBefore mixC3.main_volume_controls (-45) 0)) :=
  ⟨by decide, by decide,
    set_volume_residual_distribution mixC3 (-45) 0 masterC3
      (by decide) (by decide)⟩

/-- Backend for the C4 scenario: controls Master (range -60..0 dB, 1 dB
steps) then PCM (range -30..0 dB, 1 dB steps). -/
def backendC4 : AlsaBackend :=
  ⟨true, true, true, true,
    [⟨"Master", true, false, -60, 0, 1, [0, 0], [true, true]⟩,
     ⟨"PCM", true, false, -30, 0, 1, [0, 0], [true, true]⟩]⟩

/-- C4: for the handle discovered from Master (-60..0 dB, 1 dB steps)
followed by PCM (-30..0 dB, 1 dB steps), set_volume with -45 dB sets Master
to exactly -45 dB, leaves the residual before PCM at 0, and sets PCM to
0 dB. -/
theorem set_volume_scenario_master_pcm_neg45 :
    ((cras_alsa_mixer_create backendC4 true []).handle.map (fun m =>
        (((cras_alsa_mixer_set_volume m (-45)).main_volume_controls).map
            snd_mixer_selem_get_playback_dB,
          residualBefore m.main_volume_controls (-45) 1)))
      = some ([-45, 0], 0) := by decide

lemma quantizeUp_set_all (c : Elem) (v w : Int) :
    quantizeUp (snd_mixer_selem_set_playback_dB_all c v) w = quantizeUp c w := by
  simp [quantizeUp, snd_mixer_selem_set_playback_dB_all]

lemma set_all_idem (c : Elem) (v : Int) :
    snd_mixer_selem_set_playback_dB_all
        (snd_mixer_selem_set_playback_dB_all c v) v
      = snd_mixer_selem_set_playback_dB_all c v := by
  have hq := quantizeUp_set_all c v v
  cases c
  simp_all [snd_mixer_selem_set_playback_dB_all, List.map_map, Function.comp]

lemma set_volume_loop_idem (l : List Elem) (v : Int) :
    set_volume_loop (set_volume_loop l v) v = set_volume_loop l v := by
  induction l generalizing v with
  | nil => rfl
  | cons c rest ih =>
    simp only [set_volume_loop]
    rw [set_all_idem]
    exact congrArg _ (ih _)

/-- C8: calling set_volume twice in succession with the same value and no
intervening backend change leaves every control exactly as after the first
call, so the second call produces the same per-control applied values. -/
theorem set_volume_idempotent (m : cras_alsa_mixer) (v : Int) :
    cras_alsa_mixer_set_volume (cras_alsa_mixer_set_volume m v) v
      = cras_alsa_mixer_set_volume m v := by
  cases m
  simp [cras_alsa_mixer_set_volume, set_volume_loop_idem]

/-- C5: for a handle with no discovered mute switch, set_mute is a no-op
for either boolean value; for a handle with a mute switch, set_mute sets
that switch on all channels (channel count preserved) to the logical
negation of muted. -/
theorem set_mute_switch_semantics (m : cras_alsa_mixer) (muted : Bool) :
    (m.playback_switch = none → cras_alsa_mixer_set_mute m muted = m) ∧
    (∀ e, m.playback_switch = some e →
      (cras_alsa_mixer_set_mute m muted).playback_switch
          = some (snd_mixer_selem_set_playback_switch_all e (!muted)) ∧
      (snd_mixer_selem_set_playback_switch_all e (!muted)).switchChans.length
          = e.switchChans.length ∧
      ∀ x ∈ (snd_mixer_selem_set_playback_switch_all e (!muted)).switchChans,
        x = !muted) := by
  constructor
  · intro h
    simp [cras_alsa_mixer_set_mute, h]
  · intro e he
    refine ⟨?_, ?_, ?_⟩
    · simp [cras_alsa_mixer_set_mute, he]
    · simp [snd_mixer_selem_set_playback_switch_all]
    · intro x hx
      unfold snd_mixer_selem_set_playback_switch_all at hx
      simp only [] at hx
      obtain ⟨a, -, h2⟩ := List.mem_map.mp hx
      exact h2.symm

/-- Concrete switch element used by the C5 witness. -/
def elemC5 : Elem := ⟨"Master", false, true, 0, 0, 1, [0], [true, true]⟩

/-- Concrete handle with a mute switch used by the C5 witness. -/
def mixC5 : cras_alsa_mixer := ⟨[], some elemC5⟩

/-- Witness for C5: the no-switch handle is untouched and the concrete
switch is driven to the negation of muted on all channels. -/
theorem set_mute_switch_semantics_witness :
    (cras_alsa_mixer_set_mute (⟨[], none⟩ : cras_alsa_mixer) true
        = (⟨[], none⟩ : cras_alsa_mixer)) ∧
    ((cras_alsa_mixer_set_mute mixC5 true).playback_switch
        = some (snd_mixer_selem_set_playback_switch_all elemC5 (!true)) ∧
      (snd_mixer_selem_set_playback_switch_all elemC5 (!true)).switchChans.length
          = elemC5.switchChans.length ∧
      ∀ x ∈ (snd_mixer_selem_set_playback_switch_all elemC5 (!true)).switchChans,
        x = !true) :=
  ⟨(set_mute_switch_semantics ⟨[], none⟩ true).1 rfl,
    (set_mute_switch_semantics mixC5 true).2 elemC5 rfl⟩

/-- C9: with a discovered mute switch, set_mute true then set_mute false
leaves the switch in the on, that is unmuted, state on every channel; with
no switch, both calls leave the state unchanged. -/
theorem mute_unmute_round_trip (m : cras_alsa_mixer) :
    (m.playback_switch = none →
      cras_alsa_mixer_set_mute m true = m ∧
      cras_alsa_mixer_set_mute (cras_alsa_mixer_set_mute m true) false = m) ∧
    (∀ e, m.playback_switch = some e →
      ∃ e2, (cras_alsa_mixer_set_mute (cras_alsa_mixer_set_mute m true) false).playback_switch
          = some e2 ∧
        (Elem.switchChans e2).length = e.switchChans.length ∧
        ∀ x ∈ Elem.switchChans e2, x = true) := by
  constructor
  · intro h
    constructor <;> simp [cras_alsa_mixer_set_mute, h]
  · intro e he
    refine ⟨snd_mixer_selem_set_playback_switch_all
        (snd_mixer_selem_set_playback_switch_all e false) true, ?_, ?_, ?_⟩
    · simp [cras_alsa_mixer_set_mute, he]
    · simp [snd_mixer_selem_set_playback_switch_all]
    · intro x hx
      unfold snd_mixer_selem_set_playback_switch_all at hx
      simp only [] at hx
      obtain ⟨a, -, h2⟩ := List.mem_map.mp hx
      exact h2.symm

/-- Concrete switch element used by the C9 witness. -/
def elemC9 : Elem := ⟨"PCM", false, true, 0, 0, 1, [0], [true, true, true]⟩

/-- Concrete handle with a mute switch used by the C9 witness. -/
def mixC9 : cras_alsa_mixer := ⟨[], some elemC9⟩

/-- Witness for C9 at a no-switch handle and at a concrete switch
handle. -/
theorem mute_unmute_round_trip_witness :
    (cras_alsa_mixer_set_mute (⟨[], none⟩ : cras_alsa_mixer) true
        = (⟨[], none⟩ : cras_alsa_mixer) ∧
      cras_alsa_mixer_set_mute
          (cras_alsa_mixer_set_mute (⟨[], none⟩ : cras_alsa_mixer) true) false
        = (⟨[], none⟩ : cras_alsa_mixer)) ∧
    (∃ e2, (cras_alsa_mixer_set_mute (cras_alsa_mixer_set_mute mixC9 true) false).playback_switch
        = some e2 ∧
      (Elem.switchChans e2).length = elemC9.switchChans.length ∧
      ∀ x ∈ Elem.switchChans e2, x = true) :=
  ⟨(mute_unmute_round_trip ⟨[], none⟩).1 rfl,
    (mute_unmute_round_trip mixC9).2 elemC9 rfl⟩

lemma optOr_none (a : Option Elem) : optOr a none = a := by
  cases a <;> rfl

lemma optOr_assoc (a b c : Option Elem) :
    optOr (optOr a b) c = optOr a (optOr b c) := by
  cases a <;> rfl

lemma switch_upd_controls (cmix : cras_alsa_mixer) (e : Elem) :
    (switch_upd cmix e).main_volume_controls = cmix.main_volume_controls := by
  unfold switch_upd
  split <;> rfl

lemma switch_upd_switch (cmix : cras_alsa_mixer) (e : Elem) :
    (switch_upd cmix e).playback_switch
      = optOr cmix.playback_switch
          (if e.hasPlaybackSwitch then some e else none) := by
  cases hs : cmix.playback_switch <;> cases hb : e.hasPlaybackSwitch <;>
    simp [switch_upd, optOr, hs, hb]

lemma create_scan_cons_nomain (e : Elem) (rest : List Elem)
    (allocs : List Bool) (cmix : cras_alsa_mixer) (n : Nat)
    (h1 : is_main_volume_control e = false) :
    create_scan (e :: rest) allocs cmix n = create_scan rest allocs cmix n := by
  simp only [create_scan]
  rw [if_neg (by simp [h1])]

lemma create_scan_cons_novol (e : Elem) (rest : List Elem)
    (allocs : List Bool) (cmix : cras_alsa_mixer) (n : Nat)
    (h1 : is_main_volume_control e = true) (h2 : e.hasPlaybackVolume = false) :
    create_scan (e :: rest) allocs cmix n
      = create_scan rest allocs (switch_upd cmix e) n := by
  simp only [create_scan]
  rw [if_pos h1, if_neg (by simp [h2])]

lemma create_scan_cons_vol_ok (e : Elem) (rest : List Elem)
    (allocs : List Bool) (cmix : cras_alsa_mixer) (n : Nat)
    (h1 : is_main_volume_control e = true) (h2 : e.hasPlaybackVolume = true)
    (h3 : allocs.headD true = true) :
    create_scan (e :: rest) allocs cmix n
      = create_scan rest allocs.tail
          (switch_upd
            { cmix with
                main_volume_controls := cmix.main_volume_controls ++ [e] } e)
          (n + 1) := by
  simp only [create_scan]
  rw [if_pos h1, if_pos h2, if_pos h3]

lemma create_scan_cons_vol_fail (e : Elem) (rest : List Elem)
    (allocs : List Bool) (cmix : cras_alsa_mixer) (n : Nat)
    (h1 : is_main_volume_control e = true) (h2 : e.hasPlaybackVolume = true)
    (h3 : allocs.headD true = false) :
    create_scan (e :: rest) allocs cmix n
      = (none, n, (cras_alsa_mixer_destroy cmix).fst,
          (cras_alsa_mixer_destroy cmix).snd) := by
  simp only [create_scan]
  rw [if_pos h1, if_pos h2,
    if_neg (show ¬allocs.headD true = true by simp only [h3]; exact Bool.false_ne_true)]

lemma create_scan_spec (l : List Elem) :
    ∀ (allocs : List Bool) (cmix : cras_alsa_mixer) (n : Nat)
      (m : cras_alsa_mixer) (a f : Nat) (cl : Bool),
      create_scan l allocs cmix n = (some m, a, f, cl) →
      m.main_volume_controls
          = cmix.main_volume_controls
            ++ l.filter
                (fun e => is_main_volume_control e && e.hasPlaybackVolume) ∧
      m.playback_switch
          = optOr cmix.playback_switch
              (l.find?
                (fun e => is_main_volume_control e && e.hasPlaybackSwitch)) := by
  induction l with
  | nil =>
    intro allocs cmix n m a f cl h
    simp [create_scan, Prod.ext_iff] at h
    obtain ⟨hm, -, -, -⟩ := h
    subst hm
    simp [optOr_none]
  | cons e rest ih =>
    intro allocs cmix n m a f cl h
    cases h1 : is_main_volume_control e with
    | false =>
      rw [create_scan_cons_nomain e rest allocs cmix n h1] at h
      obtain ⟨hc, hs⟩ := ih allocs cmix n m a f cl h
      constructor
      · rw [hc]
        simp [List.filter_cons, h1]
      · rw [hs]
        simp [List.find?_cons, h1]
    | true =>
      cases h2 : e.hasPlaybackVolume with
      | false =>
        rw [create_scan_cons_novol e rest allocs cmix n h1 h2] at h
        obtain ⟨hc, hs⟩ := ih allocs (switch_upd cmix e) n m a f cl h
        constructor
        · rw [hc, switch_upd_controls]
          simp [List.filter_cons, h1, h2]
        · rw [hs, switch_upd_switch, optOr_assoc]
          congr 1
          cases h3 : e.hasPlaybackSwitch <;>
            simp [List.find?_cons, h1, h2, h3, optOr]
      | true =>
        cases h3 : allocs.headD true with
        | false =>
          rw [create_scan_cons_vol_fail e rest allocs cmix n h1 h2 h3] at h
          simp [Prod.ext_iff] at h
        | true =>
          rw [create_scan_cons_vol_ok e rest allocs cmix n h1 h2 h3] at h
          obtain ⟨hc, hs⟩ := ih allocs.tail _ (n + 1) m a f cl h
          constructor
          · rw [hc, switch_upd_controls]
            simp [List.filter_cons, h1, h2, List.append_assoc]
          · rw [hs, switch_upd_switch]
            simp only []
            rw [optOr_assoc]
            congr 1
            cases h4 : e.hasPlaybackSwitch <;>
              simp [List.find?_cons, h1, h4, optOr]

lemma is_main_volume_control_eq (e : Elem) :
    is_main_volume_control e
      = ("Master" == e.name || ("Digital" == e.name || "PCM" == e.name)) := by
  simp [is_main_volume_control, main_volume_control_names]

lemma create_handle_some (b : AlsaBackend) (allocs : List Bool)
    (m : cras_alsa_mixer)
    (h : (cras_alsa_mixer_create b true allocs).handle = some m) :
    ∃ a f cl, create_scan b.elems allocs ⟨[], none⟩ 0 = (some m, a, f, cl) := by
  unfold cras_alsa_mixer_create at h
  simp only [Bool.not_true, Bool.false_eq_true, if_false] at h
  rcases ho : alsa_mixer_open b with ⟨o, cl0⟩
  rw [ho] at h
  cases o with
  | none => simp at h
  | some u =>
    rcases hs : create_scan b.elems allocs ⟨[], none⟩ 0 with ⟨h0, a, f, cl⟩
    rw [hs] at h
    simp at h
    refine ⟨a, f, cl, ?_⟩
    rw [h]

/-- C1 as stated is false on the code: for the backend whose single (and
therefore first) enumerated element reports the playback-switch capability
but carries the unrecognized name Speaker, the created handle captures no
mute switch at all, so switch eligibility is not evaluated independently of
the recognized-name check. -/
theorem mute_switch_not_name_independent :
    ¬ (∀ (b : AlsaBackend) (m : cras_alsa_mixer),
        (cras_alsa_mixer_create b true []).handle = some m →
        m.playback_switch = b.elems.find? (fun e => e.hasPlaybackSwitch)) := by
  intro hclaim
  have h := hclaim
    ⟨true, true, true, true, [⟨"Speaker", false, true, 0, 0, 1, [0], [true]⟩]⟩
    ⟨[], none⟩ (by decide)
  exact absurd h (by decide)

/-- C1 amended: the captured mute switch is the first enumerated element
whose name is in the recognized set Master, Digital, PCM and which reports
the playback-switch capability; once captured no later element replaces it,
and volume eligibility of the element plays no further role. -/
theorem mute_switch_first_recognized_with_switch (b : AlsaBackend)
    (allocs : List Bool) (m : cras_alsa_mixer)
    (h : (cras_alsa_mixer_create b true allocs).handle = some m) :
    m.playback_switch
      = b.elems.find? (fun e =>
          ("Master" == e.name || ("Digital" == e.name || "PCM" == e.name))
            && e.hasPlaybackSwitch) := by
  obtain ⟨a, f, cl, hs⟩ := create_handle_some b allocs m h
  have hspec := (create_scan_spec b.elems allocs ⟨[], none⟩ 0 m a f cl hs).2
  simpa [optOr, is_main_volume_control_eq] using hspec

/-- Backend for the C1 witness: an unrecognized switch-capable element
enumerated first, then a recognized Digital element with the switch. -/
def backendC1 : AlsaBackend :=
  ⟨true, true, true, true,
    [⟨"Speaker", false, true, 0, 0, 1, [0], [true]⟩,
     ⟨"Digital", false, true, 0, 0, 1, [0], [true]⟩]⟩

/-- Handle the model discovers from backendC1. -/
def mixAmC1 : cras_alsa_mixer :=
  ⟨[], some ⟨"Digital", false, true, 0, 0, 1, [0], [true]⟩⟩

/-- Witness for the amended C1 at backendC1. -/
theorem mute_switch_first_recognized_with_switch_witness :
    (cras_alsa_mixer_create backendC1 true []).handle = some mixAmC1 ∧
    mixAmC1.playback_switch
      = backendC1.elems.find? (fun e =>
          ("Master" == e.name || ("Digital" == e.name || "PCM" == e.name))
            && e.hasPlaybackSwitch) :=
  ⟨by decide,
    mute_switch_first_recognized_with_switch backendC1 [] mixAmC1 (by decide)⟩

/-- C2: the ordered volume-control sequence of a created handle consists of
exactly the enumerated elements whose name equals one of Master, Digital,
PCM and which report the playback-volume capability, kept in enumeration
order with all matches retained. -/
theorem volume_controls_exact_name_filter (b : AlsaBackend)
    (allocs : List Bool) (m : cras_alsa_mixer)
    (h : (cras_alsa_mixer_create b true allocs).handle = some m) :
    m.main_volume_controls
      = b.elems.filter (fun e =>
          ("Master" == e.name || ("Digital" == e.name || "PCM" == e.name))
            && e.hasPlaybackVolume) := by
  obtain ⟨a, f, cl, hs⟩ := create_handle_some b allocs m h
  have hspec := (create_scan_spec b.elems allocs ⟨[], none⟩ 0 m a f cl hs).1
  simpa [is_main_volume_control_eq] using hspec

/-- Backend for the C2 witness: recognized names with and without volume
capability and an unrecognized name with volume capability. -/
def backendC2 : AlsaBackend :=
  ⟨true, true, true, true,
    [⟨"Master", true, false, -60, 0, 1, [0], [true]⟩,
     ⟨"Speaker", true, false, -30, 0, 1, [0], [true]⟩,
     ⟨"Digital", false, true, 0, 0, 1, [0], [true]⟩,
     ⟨"PCM", true, false, -30, 0, 1, [0], [true]⟩]⟩

/-- Handle the model discovers from backendC2. -/
def mixC2 : cras_alsa_mixer :=
  ⟨[⟨"Master", true, false, -60, 0, 1, [0], [true]⟩,
    ⟨"PCM", true, false, -30, 0, 1, [0], [true]⟩],
   some ⟨"Digital", false, true, 0, 0, 1, [0], [true]⟩⟩

/-- Witness for C2 at backendC2. -/
theorem volume_controls_exact_name_filter_witness :
    (cras_alsa_mixer_create backendC2 true []).handle = some mixC2 ∧
    mixC2.main_volume_controls
      = backendC2.elems.filter (fun e =>
          ("Master" == e.name || ("Digital" == e.name || "PCM" == e.name))
            && e.hasPlaybackVolume) :=
  ⟨by decide,
    volume_controls_exact_name_filter backendC2 [] mixC2 (by decide)⟩

/-- C10: whenever a created handle captured a mute switch, the name of that
element is one of Master, Digital, PCM; an element with a name outside the
recognized set is never selected, whatever its switch capability. -/
theorem mute_switch_name_in_recognized_set (b : AlsaBackend)
    (allocs : List Bool) (m : cras_alsa_mixer) (e : Elem)
    (h : (cras_alsa_mixer_create b true allocs).handle = some m)
    (hsw : m.playback_switch = some e) :
    e.name = "Master" ∨ e.name = "Digital" ∨ e.name = "PCM" := by
  obtain ⟨a, f, cl, hsc⟩ := create_handle_some b allocs m h
  have hspec := (create_scan_spec b.elems allocs ⟨[], none⟩ 0 m a f cl hsc).2
  rw [hsw] at hspec
  have hfind : b.elems.find?
      (fun x => is_main_volume_control x && x.hasPlaybackSwitch) = some e := by
    simpa [optOr] using hspec.symm
  have hp := List.find?_some hfind
  simp only [Bool.and_eq_true] at hp
  have hm := hp.1
  rw [is_main_volume_control_eq] at hm
  simp at hm
  rcases hm with h1 | h1 | h1
  · exact Or.inl h1.symm
  · exact Or.inr (Or.inl h1.symm)
  · exact Or.inr (Or.inr h1.symm)

/-- Backend for the C10 witness. -/
def backendC10 : AlsaBackend :=
  ⟨true, true, true, true,
    [⟨"Speaker", false, true, 0, 0, 1, [0], [true]⟩,
     ⟨"PCM", true, true, -30, 0, 1, [0], [true]⟩]⟩

/-- Handle the model discovers from backendC10. -/
def mixC10 : cras_alsa_mixer :=
  ⟨[⟨"PCM", true, true, -30, 0, 1, [0], [true]⟩],
   some ⟨"PCM", true, true, -30, 0, 1, [0], [true]⟩⟩

/-- Witness for C10 at backendC10. -/
theorem mute_switch_name_in_recognized_set_witness :
    (cras_alsa_mixer_create backendC10 true []).handle = some mixC10 ∧
    mixC10.playback_switch
      = some ⟨"PCM", true, true, -30, 0, 1, [0], [true]⟩ ∧
    (Elem.name ⟨"PCM", true, true, -30, 0, 1, [0], [true]⟩ = "Master" ∨
      Elem.name ⟨"PCM", true, true, -30, 0, 1, [0], [true]⟩ = "Digital" ∨
      Elem.name ⟨"PCM", true, true, -30, 0, 1, [0], [true]⟩ = "PCM") :=
  ⟨by decide, by decide,
    mute_switch_name_in_recognized_set backendC10 [] mixC10
      ⟨"PCM", true, true, -30, 0, 1, [0], [true]⟩ (by decide) (by decide)⟩

/-- C6: when the backend connection cannot be established at any sub-step
(open, attach, register or load), create returns the failure result with no
partial handle handed to the caller, and the connection is closed exactly
when the initial open itself had succeeded. -/
theorem create_open_failure_no_handle (b : AlsaBackend) (allocs : List Bool)
    (h : b.open_ok = false ∨ b.attach_ok = false ∨ b.register_ok = false ∨
      b.load_ok = false) :
    (cras_alsa_mixer_create b true allocs).handle = none ∧
    (cras_alsa_mixer_create b true allocs).conn_closed = b.open_ok := by
  cases h1 : b.open_ok <;> cases h2 : b.attach_ok <;>
    cases h3 : b.register_ok <;> cases h4 : b.load_ok <;>
      simp_all [cras_alsa_mixer_create, alsa_mixer_open]

/-- Backend for the C6 witness: the attach sub-step fails after a
successful open. -/
def backendC6 : AlsaBackend :=
  ⟨true, false, true, true, [⟨"Master", true, true, -60, 0, 1, [0], [true]⟩]⟩

/-- Witness for C6 at backendC6. -/
theorem create_open_failure_no_handle_witness :
    (backendC6.open_ok = false ∨ backendC6.attach_ok = false ∨
      backendC6.register_ok = false ∨ backendC6.load_ok = false) ∧
    ((cras_alsa_mixer_create backendC6 true []).handle = none ∧
      (cras_alsa_mixer_create backendC6 true []).conn_closed
        = backendC6.open_ok) :=
  ⟨by decide, create_open_failure_no_handle backendC6 [] (by decide)⟩

lemma scanAllocFails_cons_vol (e : Elem) (rest : List Elem)
    (allocs : List Bool)
    (h12 : (is_main_volume_control e && e.hasPlaybackVolume) = true) :
    scanAllocFails (e :: rest) allocs
      = if allocs.headD true then scanAllocFails rest allocs.tail
        else true := by
  simp only [scanAllocFails]
  rw [if_pos h12]

lemma scanAllocFails_cons_skip (e : Elem) (rest : List Elem)
    (allocs : List Bool)
    (h12 : (is_main_volume_control e && e.hasPlaybackVolume) = false) :
    scanAllocFails (e :: rest) allocs = scanAllocFails rest allocs := by
  simp only [scanAllocFails]
  rw [if_neg (by simp only [h12]; exact Bool.false_ne_true)]

lemma create_scan_fail (l : List Elem) :
    ∀ (allocs : List Bool) (cmix : cras_alsa_mixer) (n : Nat),
      scanAllocFails l allocs = true →
      cmix.main_volume_controls.length = n →
      ∃ k, create_scan l allocs cmix n = (none, k, k, true) := by
  induction l with
  | nil =>
    intro allocs cmix n hf _
    simp [scanAllocFails] at hf
  | cons e rest ih =>
    intro allocs cmix n hf hlen
    cases h1 : is_main_volume_control e with
    | false =>
      rw [scanAllocFails_cons_skip e rest allocs (by simp [h1])] at hf
      rw [create_scan_cons_nomain e rest allocs cmix n h1]
      exact ih allocs cmix n hf hlen
    | true =>
      cases h2 : e.hasPlaybackVolume with
      | false =>
        rw [scanAllocFails_cons_skip e rest allocs (by simp [h1, h2])] at hf
        rw [create_scan_cons_novol e rest allocs cmix n h1 h2]
        refine ih allocs (switch_upd cmix e) n hf ?_
        rw [switch_upd_controls]
        exact hlen
      | true =>
        cases h3 : allocs.headD true with
        | false =>
          rw [create_scan_cons_vol_fail e rest allocs cmix n h1 h2 h3]
          refine ⟨n, ?_⟩
          simp [cras_alsa_mixer_destroy, hlen]
        | true =>
          rw [scanAllocFails_cons_vol e rest allocs (by simp [h1, h2]),
            if_pos h3] at hf
          rw [create_scan_cons_vol_ok e rest allocs cmix n h1 h2 h3]
          refine ih allocs.tail _ (n + 1) hf ?_
          rw [switch_upd_controls]
          simp [hlen]

/-- C7: when the allocation of a volume-control record fails during
discovery, create stops, destroys the partially built handle, freeing
exactly as many records as were allocated and closing the backend
connection, and returns the failure result. -/
theorem create_alloc_failure_cleanup (b : AlsaBackend) (allocs : List Bool)
    (h1 : b.open_ok = true) (h2 : b.attach_ok = true)
    (h3 : b.register_ok = true) (h4 : b.load_ok = true)
    (hf : scanAllocFails b.elems allocs = true) :
    (cras_alsa_mixer_create b true allocs).handle = none ∧
    (cras_alsa_mixer_create b true allocs).conn_closed = true ∧
    (cras_alsa_mixer_create b true allocs).recs_freed
      = (cras_alsa_mixer_create b true allocs).recs_alloc := by
  obtain ⟨k, hk⟩ := create_scan_fail b.elems allocs ⟨[], none⟩ 0 hf rfl
  unfold cras_alsa_mixer_create
  simp only [Bool.not_true, Bool.false_eq_true, if_false]
  rw [show alsa_mixer_open b = (some (), false) by
    simp [alsa_mixer_open, h1, h2, h3, h4]]
  rw [hk]
  exact ⟨rfl, rfl, rfl⟩

/-- Backend for the C7 witness: two recognized volume-capable controls. -/
def backendC7 : AlsaBackend :=
  ⟨true, true, true, true,
    [⟨"Master", true, true, -60, 0, 1, [0], [true]⟩,
     ⟨"PCM", true, false, -30, 0, 1, [0], [true]⟩]⟩

/-- Witness for C7 at backendC7 with the second record allocation
failing. -/
theorem create_alloc_failure_cleanup_witness :
    scanAllocFails backendC7.elems [true, false] = true ∧
    ((cras_alsa_mixer_create backendC7 true [true, false]).handle = none ∧
      (cras_alsa_mixer_create backendC7 true [true, false]).conn_closed
        = true ∧
      (cras_alsa_mixer_create backendC7 true [true, false]).recs_freed
        = (cras_alsa_mixer_create backendC7 true [true, false]).recs_alloc) :=
  ⟨by decide,
    create_alloc_failure_cleanup backendC7 [true, false] rfl rfl rfl rfl
      (by decide)⟩
